import Mathlib

/-
Verification of the inflation-index fixing core
(ql/indexes/inflationindex.cpp).

Shallow embedding conventions:
  * Dates are serial day numbers, modelled as `Int` (QuantLib `Date`
    subtraction yields a day count, and `date + 1` is the next day).
  * Real values are modelled as `ℚ` (exact arithmetic); `std::pow`,
    an external math routine, is an abstract field `pow` of the curve.
  * The historical fixing series (`timeSeries()`) is a sparse map
    `Int → Option ℚ`; `none` is the `Null<Real>()` missing sentinel.
  * External calendar/period collaborators (`inflationPeriod`,
    `date ± Period(...)`, first-of-month, `inflationYearFraction`,
    `NullCalendar().advance(..., -1*Years, ModifiedFollowing)`) are
    abstract function fields of `DateOps` / `ZeroCurve`, constrained
    only by the contract the spec states for `inflationPeriod`
    (inclusive ranges that tile the date line).
  * `QL_REQUIRE` failures become `Except Err` results.
-/

/-- The error kinds raised by the core (section 7 of the spec). -/
inductive Err where
  | MissingFixing (indexName : String) (date : Int)
  | DuplicateFixing (indexName : String) (date : Int)
  | InvalidBaseDate (indexName : String) (date : Int)
  | UnsupportedInterpolation (tag : Int)
  deriving DecidableEq, Repr

/-- The historical fixing series: a sparse date-to-value map with
`none` as the missing sentinel. -/
def Series : Type := Int → Option ℚ

/-- External date/period arithmetic consumed by the engines, for one
fixed publication frequency.  `pstart`/`pend` model
`inflationPeriod(d, frequency)` (both bounds inclusive); `addPeriod`
models `d + Period(frequency)`; `subPeriod` models
`d - Period(frequency)`; `fom` models `Date(1, d.month(), d.year())`;
`sub1YMF` models `NullCalendar().advance(d, -1*Years,
ModifiedFollowing)`; `sub1Y` models `d - 1*Years`.  The propositional
fields state the `inflationPeriod` contract: the period contains its
argument, any two dates of one period have the same period, and
advancing by one publication period never moves backwards. -/
structure DateOps where
  pstart : Int → Int
  pend : Int → Int
  addPeriod : Int → Int
  subPeriod : Int → Int
  fom : Int → Int
  sub1YMF : Int → Int
  sub1Y : Int → Int
  pstart_le : ∀ d, pstart d ≤ d
  le_pend : ∀ d, d ≤ pend d
  pstart_mem : ∀ d x, pstart d ≤ x → x ≤ pend d → pstart x = pstart d
  pend_mem : ∀ d x, pstart d ≤ x → x ≤ pend d → pend x = pend d
  le_addPeriod : ∀ d, d ≤ addPeriod d

theorem DateOps.pstart_idem (ops : DateOps) (d : Int) :
    ops.pstart (ops.pstart d) = ops.pstart d :=
  ops.pstart_mem d (ops.pstart d) le_rfl ((ops.pstart_le d).trans (ops.le_pend d))

theorem DateOps.pend_pstart (ops : DateOps) (d : Int) :
    ops.pend (ops.pstart d) = ops.pend d :=
  ops.pend_mem d (ops.pstart d) le_rfl ((ops.pstart_le d).trans (ops.le_pend d))

/-- The day after a period's end starts the next period: `p.second + 1`
is a period-start key. -/
theorem DateOps.pstart_pend_succ (ops : DateOps) (d : Int) :
    ops.pstart (ops.pend d + 1) = ops.pend d + 1 := by
  set x := ops.pend d + 1 with hx
  have hsx : ops.pstart x ≤ x := ops.pstart_le x
  rcases lt_or_eq_of_le hsx with hlt | heq
  · exfalso
    have hpend_x : ops.pend (ops.pstart x) = ops.pend x :=
      ops.pend_mem x (ops.pstart x) le_rfl ((ops.pstart_le x).trans (ops.le_pend x))
    have hxle : x ≤ ops.pend x := ops.le_pend x
    rcases le_or_lt (ops.pstart d) (ops.pstart x) with hcase | hcase
    · -- the start of x's period would lie inside d's period
      have hmem : ops.pend (ops.pstart x) = ops.pend d :=
        ops.pend_mem d (ops.pstart x) hcase (by omega)
      omega
    · -- the start of x's period would lie strictly before d's period
      have hps : ops.pstart (ops.pstart x) = ops.pstart x := ops.pstart_idem x
      have hmem : ops.pstart (ops.pstart d) = ops.pstart (ops.pstart x) := by
        refine ops.pstart_mem (ops.pstart x) (ops.pstart d) ?_ ?_
        · rw [hps]; exact le_of_lt hcase
        · rw [hpend_x]
          have := ops.pstart_le d
          have := ops.le_pend d
          omega
      rw [ops.pstart_idem d, hps] at hmem
      omega
  · exact heq

/-- The zero-inflation curve interface the zero engine consumes
(`ZeroInflationTermStructure`), plus the external math routine
`std::pow`.  `zeroRate d` models `zeroRate(d, Period(0,Days), false)`;
`yearFraction f t` models `inflationYearFraction(frequency_,
interpolated_, dayCounter(), f, t)`; `addObsLag d` models
`d + observationLag()`. -/
structure ZeroCurve where
  baseDate : Int
  zeroRate : Int → ℚ
  yearFraction : Int → Int → ℚ
  addObsLag : Int → Int
  pow : ℚ → ℚ → ℚ

/-- A `ZeroInflationIndex`: descriptive attributes plus its curve.
`subAvailLag t` models `t - availabilityLag_`. -/
structure ZeroIndex where
  name : String
  interpolated : Bool
  ops : DateOps
  subAvailLag : Int → Int
  curve : ZeroCurve

/-- A `YoYInflationIndex`: descriptive attributes, the `ratio` flag and
its year-on-year curve.  `yoyRate d` models `yoyRate(d, 0*Days)`. -/
structure YoYIndex where
  name : String
  interpolated : Bool
  ratio : Bool
  ops : DateOps
  subAvailLag : Int → Int
  yoyRate : Int → ℚ

/-- The shared "use non-lagged period for interpolation" block:
`(observationDate - p2.first) / ((p2.second + 1) - p2.first)`. -/
def interpolationCoefficient (ops : DateOps) (observationDate : Int) : ℚ :=
  ((observationDate - ops.pstart observationDate : Int) : ℚ) /
    ((ops.pend observationDate + 1 - ops.pstart observationDate : Int) : ℚ)

/-- `ZeroInflationIndex::needsForecast`.  `ts` is the index's time
series and `today` the evaluation date (both process-wide state in the
source). -/
def ZeroInflationIndex.needsForecast (zi : ZeroIndex) (ts : Series) (today : Int)
    (fixingDate : Int) : Bool :=
  let todayMinusLag := zi.subAvailLag today
  let historicalFixingKnown := zi.ops.pstart todayMinusLag - 1
  let latestNeededDate :=
    if zi.interpolated && decide (zi.ops.pstart fixingDate < fixingDate) then
      zi.ops.addPeriod fixingDate
    else fixingDate
  if latestNeededDate ≤ historicalFixingKnown then false
  else if today < latestNeededDate then true
  else (ts (zi.ops.fom latestNeededDate)).isNone

/-- The historical branch of `ZeroInflationIndex::fixing` (the body of
the `!needsForecast(fixingDate)` case). -/
def ZeroInflationIndex.historicalFixing (zi : ZeroIndex) (ts : Series)
    (fixingDate : Int) : Except Err ℚ :=
  match ts (zi.ops.pstart fixingDate) with
  | none => .error (.MissingFixing zi.name (zi.ops.pstart fixingDate))
  | some I1 =>
    if zi.interpolated && decide (zi.ops.pstart fixingDate < fixingDate) then
      match ts (zi.ops.pend fixingDate + 1) with
      | none => .error (.MissingFixing zi.name (zi.ops.pend fixingDate + 1))
      | some I2 =>
        .ok (I1 + (I2 - I1) *
          interpolationCoefficient zi.ops (zi.curve.addObsLag fixingDate))
    else .ok I1

/-- The pure arithmetic part of `ZeroInflationIndex::forecastFixing`
after the base fixing has been read. -/
def ZeroInflationIndex.forecastFromBase (zi : ZeroIndex) (baseFixing : ℚ)
    (fixingDate : Int) : ℚ :=
  let firstDateInPeriod := zi.ops.pstart fixingDate
  let Z1 := zi.curve.zeroRate firstDateInPeriod
  let t1 := zi.curve.yearFraction zi.curve.baseDate firstDateInPeriod
  let I1 := baseFixing * zi.curve.pow (1 + Z1) t1
  if zi.interpolated && decide (firstDateInPeriod < fixingDate) then
    let firstDateInNextPeriod := zi.ops.pend fixingDate + 1
    let Z2 := zi.curve.zeroRate firstDateInNextPeriod
    let t2 := zi.curve.yearFraction zi.curve.baseDate firstDateInNextPeriod
    let I2 := baseFixing * zi.curve.pow (1 + Z2) t2
    I1 + (I2 - I1) * interpolationCoefficient zi.ops (zi.curve.addObsLag fixingDate)
  else I1

/-- `ZeroInflationIndex::forecastFixing`.  The source reads the base
fixing through `fixing(baseDate)`; at that point
`needsForecast(baseDate)` is known to be `false`, so that call is
exactly the historical branch, which is used here to keep the
definitions structurally recursive. -/
def ZeroInflationIndex.forecastFixing (zi : ZeroIndex) (ts : Series) (today : Int)
    (fixingDate : Int) : Except Err ℚ :=
  if ZeroInflationIndex.needsForecast zi ts today zi.curve.baseDate then
    .error (.InvalidBaseDate zi.name zi.curve.baseDate)
  else
    match ZeroInflationIndex.historicalFixing zi ts zi.curve.baseDate with
    | .error e => .error e
    | .ok baseFixing => .ok (ZeroInflationIndex.forecastFromBase zi baseFixing fixingDate)

/-- `ZeroInflationIndex::fixing`. -/
def ZeroInflationIndex.fixing (zi : ZeroIndex) (ts : Series) (today : Int)
    (fixingDate : Int) : Except Err ℚ :=
  if ZeroInflationIndex.needsForecast zi ts today fixingDate then
    ZeroInflationIndex.forecastFixing zi ts today fixingDate
  else
    ZeroInflationIndex.historicalFixing zi ts fixingDate

/-- `YoYInflationIndex::forecastFixing`: query the curve at the date
itself when interpolated, else at the containing period's start. -/
def YoYInflationIndex.forecastFixing (yi : YoYIndex) (fixingDate : Int) : ℚ :=
  if yi.interpolated then yi.yoyRate fixingDate
  else yi.yoyRate (yi.ops.pstart fixingDate)

/-- The historical part of `YoYInflationIndex::fixing`: the four cases
on `(ratio, interpolated)` reached when neither forecast threshold
triggers. -/
def YoYInflationIndex.historicalFixing (yi : YoYIndex) (ts : Series)
    (fixingDate : Int) : Except Err ℚ :=
  if yi.ratio then
    if yi.interpolated then
      -- IS ratio, IS interpolated
      let s := yi.ops.pstart fixingDate
      let e := yi.ops.pend fixingDate
      let fixMinus1Y := yi.ops.sub1YMF fixingDate
      let sBef := yi.ops.pstart fixMinus1Y
      let eBef := yi.ops.pend fixMinus1Y
      let dp : ℚ := ((e + 1 - s : Int) : ℚ)
      let dpBef : ℚ := ((eBef + 1 - sBef : Int) : ℚ)
      let dl : ℚ := ((fixingDate - s : Int) : ℚ)
      let dlBef : ℚ := ((fixMinus1Y - sBef : Int) : ℚ)
      match ts s with
      | none => .error (.MissingFixing yi.name s)
      | some limFirstFix =>
        match ts (e + 1) with
        | none => .error (.MissingFixing yi.name (e + 1))
        | some limSecondFix =>
          match ts sBef with
          | none => .error (.MissingFixing yi.name sBef)
          | some limBefFirstFix =>
            match ts (eBef + 1) with
            | none => .error (.MissingFixing yi.name (eBef + 1))
            | some limBefSecondFix =>
              let linearNow := limFirstFix + (limSecondFix - limFirstFix) * dl / dp
              let linearBef := limBefFirstFix + (limBefSecondFix - limBefFirstFix) * dlBef / dpBef
              .ok (linearNow / linearBef - 1)
    else
      -- IS ratio, NOT interpolated.  Note: the source reports the
      -- queried fixingDate, not the period-start key it looked up.
      match ts (yi.ops.pstart fixingDate) with
      | none => .error (.MissingFixing yi.name fixingDate)
      | some pastFixing =>
        let previousDate := yi.ops.sub1Y fixingDate
        match ts (yi.ops.pstart previousDate) with
        | none => .error (.MissingFixing yi.name (yi.ops.pstart previousDate))
        | some previousFixing => .ok (pastFixing / previousFixing - 1)
  else
    if yi.interpolated then
      -- NOT ratio, IS interpolated
      let s := yi.ops.pstart fixingDate
      let e := yi.ops.pend fixingDate
      let dp : ℚ := ((e + 1 - s : Int) : ℚ)
      let dl : ℚ := ((fixingDate - s : Int) : ℚ)
      match ts s with
      | none => .error (.MissingFixing yi.name s)
      | some limFirstFix =>
        match ts (e + 1) with
        | none => .error (.MissingFixing yi.name (e + 1))
        | some limSecondFix =>
          .ok (limFirstFix + (limSecondFix - limFirstFix) * dl / dp)
    else
      -- NOT ratio, NOT interpolated: just flat
      match ts (yi.ops.pstart fixingDate) with
      | none => .error (.MissingFixing yi.name (yi.ops.pstart fixingDate))
      | some pastFixing => .ok pastFixing

/-- `YoYInflationIndex::fixing`: the forecast thresholds followed by
the historical four-way branch. -/
def YoYInflationIndex.fixing (yi : YoYIndex) (ts : Series) (today : Int)
    (fixingDate : Int) : Except Err ℚ :=
  let todayMinusLag := yi.subAvailLag today
  let lastFix := yi.ops.pstart todayMinusLag - 1
  let flatMustForecastOn := lastFix + 1
  let interpMustForecastOn := yi.ops.subPeriod (lastFix + 1)
  if yi.interpolated && decide (interpMustForecastOn ≤ fixingDate) then
    .ok (YoYInflationIndex.forecastFixing yi fixingDate)
  else if !yi.interpolated && decide (flatMustForecastOn ≤ fixingDate) then
    .ok (YoYInflationIndex.forecastFixing yi fixingDate)
  else
    YoYInflationIndex.historicalFixing yi ts fixingDate

/-- Does the series already hold a different fixing at `k`?  (The
duplicate test of `Index::addFixings`.) -/
def conflictsWith (ts : Series) (value : ℚ) (k : Int) : Bool :=
  match ts k with
  | some w => decide (w ≠ value)
  | none => false

/-- Modelled from the spec: `Index::addFixings` (defined in the base
`Index` class, which is not under src/) writes the submitted value at
each listed date; it "fails with DuplicateFixing if any target day
already holds a different fixing and forceOverwrite is false", the
reported date being the offending day. -/
def Index.addFixings (name : String) (ts : Series) (days : List Int) (value : ℚ)
    (forceOverwrite : Bool) : Except Err Series :=
  let conflict :=
    if forceOverwrite then none
    else days.find? (conflictsWith ts value)
  match conflict with
  | some k => .error (.DuplicateFixing name k)
  | none => .ok fun k => if k ∈ days then some value else ts k

/-- The calendar days of the inflation period containing `d`
(the `dates` vector built by `InflationIndex::addFixing`). -/
def periodDays (ops : DateOps) (d : Int) : List Int :=
  (List.range (ops.pend d + 1 - ops.pstart d).toNat).map
    fun (i : Nat) => ops.pstart d + (i : Int)

/-- `InflationIndex::addFixing`: replicate the single submitted value
across every day of the containing publication period. -/
def InflationIndex.addFixing (ops : DateOps) (name : String) (ts : Series)
    (fixingDate : Int) (value : ℚ) (forceOverwrite : Bool) : Except Err Series :=
  Index.addFixings name ts (periodDays ops fixingDate) value forceOverwrite

/-- `CPI::laggedFixing`.  The C++ interpolation-type enum is modelled
by its integer value (`AsIndex` = 0, `Flat` = 1, `Linear` = 2, any
other value hits the `default` branch); `subObsLag d` models
`d - observationLag` for the lag passed to the call. -/
def CPI.laggedFixing (zi : ZeroIndex) (ts : Series) (today : Int) (date : Int)
    (subObsLag : Int → Int) (interpolationType : Int) : Except Err ℚ :=
  if interpolationType = 0 then
    ZeroInflationIndex.fixing zi ts today (subObsLag date)
  else if interpolationType = 1 then
    ZeroInflationIndex.fixing zi ts today (zi.ops.pstart (subObsLag date))
  else if interpolationType = 2 then
    if date = zi.ops.pstart date then
      -- special case; no interpolation
      ZeroInflationIndex.fixing zi ts today (zi.ops.pstart (subObsLag date))
    else
      match ZeroInflationIndex.fixing zi ts today (zi.ops.pstart (subObsLag date)) with
      | .error e => .error e
      | .ok I0 =>
        match ZeroInflationIndex.fixing zi ts today (zi.ops.pend (subObsLag date) + 1) with
        | .error e => .error e
        | .ok I1 =>
          .ok (I0 + (I1 - I0) * ((date - zi.ops.pstart date : Int) : ℚ) /
            ((zi.ops.pend date + 1 - zi.ops.pstart date : Int) : ℚ))
  else .error (.UnsupportedInterpolation interpolationType)

/-
Concrete instances used by witnesses and counterexamples.  `blockOps30`
behaves like a monthly calendar whose months all have 30 days (periods
are the blocks `[30*k, 30*k+29]`, and the first of the month of a date
is its period start).  `quarterOps90` behaves like a quarterly calendar
over the same 30-day months: publication periods are 90-day blocks but
the first of the month is still the enclosing 30-day block's start.
-/

def blockOps30 : DateOps where
  pstart d := 30 * (d / 30)
  pend d := 30 * (d / 30) + 29
  addPeriod d := d + 30
  subPeriod d := d - 30
  fom d := 30 * (d / 30)
  sub1YMF d := d - 360
  sub1Y d := d - 360
  pstart_le d := by dsimp only; omega
  le_pend d := by dsimp only; omega
  pstart_mem d x h1 h2 := by dsimp only at h1 h2 ⊢; omega
  pend_mem d x h1 h2 := by dsimp only at h1 h2 ⊢; omega
  le_addPeriod d := by dsimp only; omega

def quarterOps90 : DateOps where
  pstart d := 90 * (d / 90)
  pend d := 90 * (d / 90) + 89
  addPeriod d := d + 90
  subPeriod d := d - 90
  fom d := 30 * (d / 30)
  sub1YMF d := d - 360
  sub1Y d := d - 360
  pstart_le d := by dsimp only; omega
  le_pend d := by dsimp only; omega
  pstart_mem d x h1 h2 := by dsimp only at h1 h2 ⊢; omega
  pend_mem d x h1 h2 := by dsimp only at h1 h2 ⊢; omega
  le_addPeriod d := by dsimp only; omega

/-
Helper lemmas shared by several claim theorems.
-/

/-- Every error produced by the historical branch of
`ZeroInflationIndex::fixing` is a MissingFixing naming the index. -/
theorem ZeroInflationIndex.historicalFixing_error (zi : ZeroIndex) (ts : Series)
    (fixingDate : Int) (e : Err)
    (h : ZeroInflationIndex.historicalFixing zi ts fixingDate = .error e) :
    ∃ k, e = .MissingFixing zi.name k := by
  unfold ZeroInflationIndex.historicalFixing at h
  cases h1 : ts (zi.ops.pstart fixingDate) with
  | none => rw [h1] at h; exact ⟨zi.ops.pstart fixingDate, by simpa using h.symm⟩
  | some I1 =>
    rw [h1] at h
    dsimp only at h
    by_cases hc : (zi.interpolated && decide (zi.ops.pstart fixingDate < fixingDate)) = true
    · rw [if_pos hc] at h
      cases h2 : ts (zi.ops.pend fixingDate + 1) with
      | none => rw [h2] at h; exact ⟨zi.ops.pend fixingDate + 1, by simpa using h.symm⟩
      | some I2 => rw [h2] at h; simp at h
    · rw [if_neg hc] at h; simp at h

/-- When the date is classified as historical, `fixing` is exactly the
historical branch. -/
theorem ZeroInflationIndex.fixing_of_not_needsForecast (zi : ZeroIndex) (ts : Series)
    (today fixingDate : Int)
    (hnf : ZeroInflationIndex.needsForecast zi ts today fixingDate = false) :
    ZeroInflationIndex.fixing zi ts today fixingDate =
      ZeroInflationIndex.historicalFixing zi ts fixingDate := by
  unfold ZeroInflationIndex.fixing
  rw [hnf]
  simp

/-- C2: for an interpolated ZeroInflationIndex and a fixing date
classified as historical, strictly inside its period and with both
surrounding stored fixings present, `fixing` returns
`I1 + (I2 - I1) * w` where the weight `w` is computed from the
non-lagged period containing `fixingDate + observationLag`. -/
theorem zero_interpolated_historical_fixing
    (zi : ZeroIndex) (ts : Series) (today fixingDate : Int) (I1 I2 : ℚ)
    (hinterp : zi.interpolated = true)
    (hnf : ZeroInflationIndex.needsForecast zi ts today fixingDate = false)
    (hlt : zi.ops.pstart fixingDate < fixingDate)
    (h1 : ts (zi.ops.pstart fixingDate) = some I1)
    (h2 : ts (zi.ops.pend fixingDate + 1) = some I2) :
    ZeroInflationIndex.fixing zi ts today fixingDate =
      .ok (I1 + (I2 - I1) *
        (((zi.curve.addObsLag fixingDate -
             zi.ops.pstart (zi.curve.addObsLag fixingDate) : Int) : ℚ) /
         ((zi.ops.pend (zi.curve.addObsLag fixingDate) + 1 -
             zi.ops.pstart (zi.curve.addObsLag fixingDate) : Int) : ℚ))) := by
  rw [ZeroInflationIndex.fixing_of_not_needsForecast zi ts today fixingDate hnf]
  unfold ZeroInflationIndex.historicalFixing
  rw [h1, h2]
  simp [hinterp, hlt, interpolationCoefficient]

/-- C2 witness: a concrete interpolated index over the 30-day calendar
with fixings 100 and 110 around the period `[0, 29]`. -/
def wCurve : ZeroCurve where
  baseDate := 0
  zeroRate _ := 1/20
  yearFraction f t := ((t - f : Int) : ℚ) / 360
  addObsLag d := d
  pow b t := b + t

def wZi : ZeroIndex where
  name := "EU HICP"
  interpolated := true
  ops := blockOps30
  subAvailLag t := t
  curve := wCurve

def wTs : Series := fun k =>
  if k = 0 then some 100 else if k = 30 then some 110 else none

theorem zero_interpolated_historical_fixing_witness :
    ZeroInflationIndex.needsForecast wZi wTs 1000 15 = false ∧
    blockOps30.pstart 15 < 15 ∧
    ZeroInflationIndex.fixing wZi wTs 1000 15 =
      .ok (100 + (110 - 100) *
        (((wZi.curve.addObsLag 15 - wZi.ops.pstart (wZi.curve.addObsLag 15) : Int) : ℚ) /
         ((wZi.ops.pend (wZi.curve.addObsLag 15) + 1 -
             wZi.ops.pstart (wZi.curve.addObsLag 15) : Int) : ℚ))) :=
  ⟨by decide, by decide,
    zero_interpolated_historical_fixing wZi wTs 1000 15 100 110 rfl (by decide)
      (by decide) rfl rfl⟩

/-- C5: for a non-interpolated index over a curve returning the same
zero rate `z` at every date, `forecastFixing(d)` equals
`baseFixing * (1+z)^t1` exactly, with `baseFixing = fixing(baseDate)`
and `t1` the inflation year fraction from the curve's base date to the
start of the period containing `d`. -/
theorem zero_forecast_constant_rate
    (zi : ZeroIndex) (ts : Series) (today fixingDate : Int) (z baseFixing : ℚ)
    (hinterp : zi.interpolated = false)
    (hz : ∀ d, zi.curve.zeroRate d = z)
    (hnf : ZeroInflationIndex.needsForecast zi ts today zi.curve.baseDate = false)
    (hbase : ZeroInflationIndex.fixing zi ts today zi.curve.baseDate = .ok baseFixing) :
    ZeroInflationIndex.forecastFixing zi ts today fixingDate =
      .ok (baseFixing * zi.curve.pow (1 + z)
        (zi.curve.yearFraction zi.curve.baseDate (zi.ops.pstart fixingDate))) := by
  rw [ZeroInflationIndex.fixing_of_not_needsForecast zi ts today zi.curve.baseDate hnf]
    at hbase
  unfold ZeroInflationIndex.forecastFixing
  rw [hnf, hbase]
  simp [ZeroInflationIndex.forecastFromBase, hinterp, hz]

/-- C5 witness: a flat 5% curve over the 30-day calendar; the base
fixing 100 is stored at the base date 0 and the forecast at date 45 is
`100 * pow(1 + 1/20, 30/360)` with the abstract external `pow`. -/
def w5Zi : ZeroIndex where
  name := "EU HICP"
  interpolated := false
  ops := blockOps30
  subAvailLag t := t
  curve := wCurve

theorem zero_forecast_constant_rate_witness :
    ZeroInflationIndex.needsForecast w5Zi wTs 1000 w5Zi.curve.baseDate = false ∧
    ZeroInflationIndex.fixing w5Zi wTs 1000 w5Zi.curve.baseDate = .ok 100 ∧
    ZeroInflationIndex.forecastFixing w5Zi wTs 1000 45 =
      .ok (100 * w5Zi.curve.pow (1 + 1/20)
        (w5Zi.curve.yearFraction w5Zi.curve.baseDate (w5Zi.ops.pstart 45))) :=
  ⟨by decide, by simp [ZeroInflationIndex.fixing, ZeroInflationIndex.needsForecast,
      ZeroInflationIndex.historicalFixing, w5Zi, wCurve, wTs, blockOps30],
    zero_forecast_constant_rate w5Zi wTs 1000 45 (1/20) 100 rfl (fun _ => rfl)
      (by decide)
      (by simp [ZeroInflationIndex.fixing, ZeroInflationIndex.needsForecast,
        ZeroInflationIndex.historicalFixing, w5Zi, wCurve, wTs, blockOps30])⟩

/-- C6: `forecastFixing` fails with InvalidBaseDate, reporting the
curve's base date, exactly when `needsForecast(baseDate)` holds; when
the base date is historically resolvable it proceeds with
`fixing(baseDate)` as the base fixing. -/
theorem zero_forecast_invalid_base_date
    (zi : ZeroIndex) (ts : Series) (today fixingDate : Int) :
    (ZeroInflationIndex.forecastFixing zi ts today fixingDate =
        .error (.InvalidBaseDate zi.name zi.curve.baseDate) ↔
      ZeroInflationIndex.needsForecast zi ts today zi.curve.baseDate = true) ∧
    (ZeroInflationIndex.needsForecast zi ts today zi.curve.baseDate = false →
      ZeroInflationIndex.forecastFixing zi ts today fixingDate =
        (ZeroInflationIndex.fixing zi ts today zi.curve.baseDate).map
          (fun baseFixing =>
            ZeroInflationIndex.forecastFromBase zi baseFixing fixingDate)) := by
  constructor
  · constructor
    · intro h
      cases hnf : ZeroInflationIndex.needsForecast zi ts today zi.curve.baseDate with
      | true => rfl
      | false =>
        exfalso
        unfold ZeroInflationIndex.forecastFixing at h
        rw [hnf] at h
        simp only [Bool.false_eq_true, if_false] at h
        cases hh : ZeroInflationIndex.historicalFixing zi ts zi.curve.baseDate with
        | error e =>
          rw [hh] at h
          obtain ⟨k, hk⟩ := ZeroInflationIndex.historicalFixing_error zi ts
            zi.curve.baseDate e hh
          simp [hk] at h
        | ok baseFixing => rw [hh] at h; simp at h
    · intro h
      unfold ZeroInflationIndex.forecastFixing
      rw [h]
      simp
  · intro hnf
    unfold ZeroInflationIndex.forecastFixing
    rw [hnf, ZeroInflationIndex.fixing_of_not_needsForecast zi ts today
      zi.curve.baseDate hnf]
    simp only [Bool.false_eq_true, if_false]
    cases hh : ZeroInflationIndex.historicalFixing zi ts zi.curve.baseDate <;>
      simp [Except.map]

/-- C6 witness: with the base date moved to 2000, far past today,
`needsForecast(baseDate)` holds and the forecast fails naming it; the
implication side is exercised on the resolvable base date 0. -/
def w6Zi : ZeroIndex where
  name := "EU HICP"
  interpolated := false
  ops := blockOps30
  subAvailLag t := t
  curve := { wCurve with baseDate := 2000 }

theorem zero_forecast_invalid_base_date_witness :
    ZeroInflationIndex.needsForecast w6Zi wTs 1000 w6Zi.curve.baseDate = true ∧
    ZeroInflationIndex.forecastFixing w6Zi wTs 1000 45 =
      .error (.InvalidBaseDate w6Zi.name w6Zi.curve.baseDate) ∧
    ZeroInflationIndex.needsForecast w5Zi wTs 1000 w5Zi.curve.baseDate = false ∧
    ZeroInflationIndex.forecastFixing w5Zi wTs 1000 45 =
      (ZeroInflationIndex.fixing w5Zi wTs 1000 w5Zi.curve.baseDate).map
        (fun baseFixing => ZeroInflationIndex.forecastFromBase w5Zi baseFixing 45) :=
  ⟨by decide,
    (zero_forecast_invalid_base_date w6Zi wTs 1000 45).1.mpr (by decide),
    by decide,
    (zero_forecast_invalid_base_date w5Zi wTs 1000 45).2 (by decide)⟩

/-- C9: when the query date is the start of its own (interpolation)
period, `laggedFixing` with Flat and with Linear agree, both returning
the index fixing at the start of the period containing `date - lag`;
an unrecognized interpolation tag fails with UnsupportedInterpolation
reporting the tag. -/
theorem laggedFixing_flat_linear_degenerate
    (zi : ZeroIndex) (ts : Series) (today date : Int) (subObsLag : Int → Int)
    (h : date = zi.ops.pstart date) :
    CPI.laggedFixing zi ts today date subObsLag 1 =
      CPI.laggedFixing zi ts today date subObsLag 2 ∧
    CPI.laggedFixing zi ts today date subObsLag 1 =
      ZeroInflationIndex.fixing zi ts today (zi.ops.pstart (subObsLag date)) ∧
    (∀ tag : Int, tag ≠ 0 → tag ≠ 1 → tag ≠ 2 →
      CPI.laggedFixing zi ts today date subObsLag tag =
        .error (.UnsupportedInterpolation tag)) := by
  refine ⟨?_, ?_, ?_⟩
  · unfold CPI.laggedFixing
    norm_num
    rw [if_pos h]
  · unfold CPI.laggedFixing
    norm_num
  · intro tag h0 h1 h2
    unfold CPI.laggedFixing
    rw [if_neg h0, if_neg h1, if_neg h2]

/-- C9 witness: over the 30-day calendar with a 10-day observation lag,
date 30 starts its period and Flat/Linear agree on the stored value at
the start of the period containing `30 - 10`. -/
theorem laggedFixing_flat_linear_degenerate_witness :
    (30 : Int) = wZi.ops.pstart 30 ∧
    CPI.laggedFixing wZi wTs 1000 30 (fun d => d - 10) 1 =
      CPI.laggedFixing wZi wTs 1000 30 (fun d => d - 10) 2 ∧
    CPI.laggedFixing wZi wTs 1000 30 (fun d => d - 10) 7 =
      .error (.UnsupportedInterpolation 7) :=
  ⟨by decide,
    (laggedFixing_flat_linear_degenerate wZi wTs 1000 30 (fun d => d - 10)
      (by decide)).1,
    (laggedFixing_flat_linear_degenerate wZi wTs 1000 30 (fun d => d - 10)
      (by decide)).2.2 7 (by decide) (by decide) (by decide)⟩

/-- When neither forecast threshold triggers, `YoYInflationIndex::fixing`
is its historical four-way branch. -/
theorem YoYInflationIndex.fixing_historical (yi : YoYIndex) (ts : Series)
    (today fixingDate : Int)
    (hi : yi.interpolated = true →
      ¬(yi.ops.subPeriod (yi.ops.pstart (yi.subAvailLag today)) ≤ fixingDate))
    (hf : yi.interpolated = false →
      ¬(yi.ops.pstart (yi.subAvailLag today) ≤ fixingDate)) :
    YoYInflationIndex.fixing yi ts today fixingDate =
      YoYInflationIndex.historicalFixing yi ts fixingDate := by
  unfold YoYInflationIndex.fixing
  cases hint : yi.interpolated with
  | true => simp [hint, hi hint]
  | false => simp [hint, hf hint]

/-- C10: a ratio, interpolated YoYInflationIndex taking the historical
branch at the exact start of the containing period still requires the
stored fixing at the start of the next period (failing with
MissingFixing otherwise), even though the interpolation weight is zero
and the result is the period-start expression with `dl = 0`; the zero
engine, by contrast, returns the period-start fixing without consulting
the next period at all. -/
theorem yoy_ratio_interpolated_requires_next_period
    (yi : YoYIndex) (ts : Series) (today fixingDate : Int) (a : ℚ)
    (hinterp : yi.interpolated = true) (hratio : yi.ratio = true)
    (hgate : ¬(yi.ops.subPeriod (yi.ops.pstart (yi.subAvailLag today)) ≤ fixingDate))
    (hs : yi.ops.pstart fixingDate = fixingDate)
    (ha : ts (yi.ops.pstart fixingDate) = some a) :
    (ts (yi.ops.pend fixingDate + 1) = none →
      YoYInflationIndex.fixing yi ts today fixingDate =
        .error (.MissingFixing yi.name (yi.ops.pend fixingDate + 1))) ∧
    (∀ b c f : ℚ, ts (yi.ops.pend fixingDate + 1) = some b →
      ts (yi.ops.pstart (yi.ops.sub1YMF fixingDate)) = some c →
      ts (yi.ops.pend (yi.ops.sub1YMF fixingDate) + 1) = some f →
      YoYInflationIndex.fixing yi ts today fixingDate =
        .ok (a / (c + (f - c) *
          ((yi.ops.sub1YMF fixingDate -
              yi.ops.pstart (yi.ops.sub1YMF fixingDate) : Int) : ℚ) /
          ((yi.ops.pend (yi.ops.sub1YMF fixingDate) + 1 -
              yi.ops.pstart (yi.ops.sub1YMF fixingDate) : Int) : ℚ)) - 1)) ∧
    (∀ (zi : ZeroIndex) (ts2 : Series) (today2 d2 : Int) (a2 : ℚ),
      zi.interpolated = true → zi.ops.pstart d2 = d2 →
      ZeroInflationIndex.needsForecast zi ts2 today2 d2 = false →
      ts2 (zi.ops.pstart d2) = some a2 →
      ZeroInflationIndex.fixing zi ts2 today2 d2 = .ok a2) := by
  have hfix := YoYInflationIndex.fixing_historical yi ts today fixingDate
    (fun _ => hgate)
    (fun h => by rw [h] at hinterp; exact absurd hinterp (by decide))
  refine ⟨?_, ?_, ?_⟩
  · intro hnone
    rw [hfix]
    simp only [YoYInflationIndex.historicalFixing, hratio, hinterp, if_true, ha, hnone]
  · intro b c f hb hc hf
    rw [hfix]
    simp only [YoYInflationIndex.historicalFixing, hratio, hinterp, if_true, ha, hb, hc, hf]
    simp [hs]
  · intro zi ts2 today2 d2 a2 hint2 hps2 hnf2 ha2
    rw [ZeroInflationIndex.fixing_of_not_needsForecast zi ts2 today2 d2 hnf2]
    unfold ZeroInflationIndex.historicalFixing
    rw [ha2]
    simp [hps2]

/-- C10 witness index: ratio, interpolated, over the 30-day calendar. -/
def wYoY : YoYIndex where
  name := "UK RPI YoY"
  interpolated := true
  ratio := true
  ops := blockOps30
  subAvailLag t := t
  yoyRate _ := 0

def wTs10a : Series := fun k => if k = 390 then some 110 else none

def wTs10b : Series := fun k =>
  if k = 390 then some 110 else if k = 420 then some 112
  else if k = 30 then some 100 else if k = 60 then some 101 else none

theorem yoy_ratio_interpolated_requires_next_period_witness :
    wTs10a (wYoY.ops.pend 390 + 1) = none ∧
    YoYInflationIndex.fixing wYoY wTs10a 1000 390 =
      .error (.MissingFixing wYoY.name (wYoY.ops.pend 390 + 1)) ∧
    YoYInflationIndex.fixing wYoY wTs10b 1000 390 =
      .ok (110 / (100 + (101 - 100) *
        ((wYoY.ops.sub1YMF 390 - wYoY.ops.pstart (wYoY.ops.sub1YMF 390) : Int) : ℚ) /
        ((wYoY.ops.pend (wYoY.ops.sub1YMF 390) + 1 -
            wYoY.ops.pstart (wYoY.ops.sub1YMF 390) : Int) : ℚ)) - 1) ∧
    ZeroInflationIndex.fixing wZi wTs10a 1000 390 = .ok 110 :=
  ⟨rfl,
    (yoy_ratio_interpolated_requires_next_period wYoY wTs10a 1000 390 110 rfl rfl
      (by decide) (by decide) rfl).1 rfl,
    (yoy_ratio_interpolated_requires_next_period wYoY wTs10b 1000 390 110 rfl rfl
      (by decide) (by decide) rfl).2.1 112 100 101 rfl rfl rfl,
    (yoy_ratio_interpolated_requires_next_period wYoY wTs10a 1000 390 110 rfl rfl
      (by decide) (by decide) rfl).2.2 wZi wTs10a 1000 390 110 rfl (by decide)
      (by decide) rfl⟩

def emptyTs : Series := fun _ => none

/-- C1 (amended): for a non-interpolated index, `needsForecast` is
false at every date strictly before `historicalFixingKnown` (the day
before the start of the period containing today minus the availability
lag); and provided the availability lag does not push `today - lag`
past `today` (a nonnegative lag), `needsForecast` is true at every
date strictly after `today` — for any index.  An interpolated index
can need a forecast before `historicalFixingKnown`, and a negative lag
can make dates after `today` historically known, so both provisos are
required (see the counterexample). -/
theorem needsForecast_frontier
    (zi : ZeroIndex) (ts : Series) (today : Int)
    (hlag : zi.subAvailLag today ≤ today) :
    (zi.interpolated = false → ∀ d : Int,
      d < zi.ops.pstart (zi.subAvailLag today) - 1 →
      ZeroInflationIndex.needsForecast zi ts today d = false) ∧
    (∀ d : Int, today < d →
      ZeroInflationIndex.needsForecast zi ts today d = true) := by
  constructor
  · intro hint d hd
    unfold ZeroInflationIndex.needsForecast
    simp only [hint, Bool.false_and, Bool.false_eq_true, if_false]
    rw [if_pos (by omega)]
  · intro d hd
    unfold ZeroInflationIndex.needsForecast
    have hps := zi.ops.pstart_le (zi.subAvailLag today)
    by_cases hc : (zi.interpolated && decide (zi.ops.pstart d < d)) = true
    · have hadd := zi.ops.le_addPeriod d
      rw [if_pos hc, if_neg (by omega), if_pos (by omega)]
    · rw [if_neg hc, if_neg (by omega), if_pos (by omega)]

/-- C1 counterexample: the claim as stated fails on the code.  With an
interpolated index (30-day periods, zero lag, today = 45) the date 25
lies strictly before `historicalFixingKnown` = 29, yet `needsForecast`
is true, because interpolation also needs the next period's fixing.
With a negative availability lag (today - lag = today + 65, today =
10) the date 20 lies strictly after today, yet `needsForecast` is
false. -/
def c1nZi : ZeroIndex :=
  { wZi with interpolated := false, subAvailLag := fun t => t + 65 }

theorem needsForecast_frontier_counterexample :
    ((25 : Int) < wZi.ops.pstart (wZi.subAvailLag 45) - 1 ∧
      ZeroInflationIndex.needsForecast wZi emptyTs 45 25 = true) ∧
    ((10 : Int) < 20 ∧
      ZeroInflationIndex.needsForecast c1nZi emptyTs 10 20 = false) := by
  decide

theorem needsForecast_frontier_witness :
    w5Zi.subAvailLag 1000 ≤ 1000 ∧
    ZeroInflationIndex.needsForecast w5Zi emptyTs 1000 500 = false ∧
    ZeroInflationIndex.needsForecast w5Zi emptyTs 1000 1500 = true :=
  ⟨by decide,
    (needsForecast_frontier w5Zi emptyTs 1000 (by decide)).1 rfl 500 (by decide),
    (needsForecast_frontier w5Zi emptyTs 1000 (by decide)).2 1500 (by decide)⟩

/-- C8 (amended): for a non-interpolated ZeroInflationIndex, and for a
non-interpolated, non-ratio YoYInflationIndex, any date classified as
historical yields the single stored value at the start of its
publication period, for every date of that period (the fixing is flat
across the period).  The ratio flavor of YoYInflationIndex instead
returns the ratio of period-start values minus one (see the
counterexample), so it is excluded. -/
theorem flat_fixing_non_interpolated (v : ℚ) :
    (∀ (zi : ZeroIndex) (ts : Series) (today d d2 : Int),
      zi.interpolated = false →
      ts (zi.ops.pstart d) = some v →
      zi.ops.pstart d2 = zi.ops.pstart d →
      ZeroInflationIndex.needsForecast zi ts today d2 = false →
      ZeroInflationIndex.fixing zi ts today d2 = .ok v) ∧
    (∀ (yi : YoYIndex) (ts : Series) (today d d2 : Int),
      yi.interpolated = false → yi.ratio = false →
      ts (yi.ops.pstart d) = some v →
      yi.ops.pstart d2 = yi.ops.pstart d →
      ¬(yi.ops.pstart (yi.subAvailLag today) ≤ d2) →
      YoYInflationIndex.fixing yi ts today d2 = .ok v) := by
  constructor
  · intro zi ts today d d2 hint hts hp hnf
    rw [ZeroInflationIndex.fixing_of_not_needsForecast zi ts today d2 hnf]
    unfold ZeroInflationIndex.historicalFixing
    rw [hp, hts]
    simp [hint]
  · intro yi ts today d d2 hint hratio hts hp hgate
    rw [YoYInflationIndex.fixing_historical yi ts today d2
      (fun h => by rw [h] at hint; exact absurd hint (by decide))
      (fun _ => hgate)]
    unfold YoYInflationIndex.historicalFixing
    simp only [hratio, hint, Bool.false_eq_true, if_false]
    rw [hp, hts]

/-- C8 counterexample: a ratio, non-interpolated YoYInflationIndex
whose classification is historical at date 400 (30-day periods, today
= 1000, zero lag).  The stored period-start value is 110, but `fixing`
returns the year-on-year ratio `110/100 - 1 = 1/10`, not the stored
value — so "for every index with interpolated = false" is false as
stated. -/
def c8Yi : YoYIndex := { wYoY with interpolated := false }

def c8Ts : Series := fun k =>
  if k = 390 then some 110 else if k = 30 then some 100 else none

theorem flat_fixing_non_interpolated_counterexample :
    c8Yi.interpolated = false ∧
    c8Ts (c8Yi.ops.pstart 400) = some 110 ∧
    ¬(c8Yi.ops.pstart (c8Yi.subAvailLag 1000) ≤ 400) ∧
    YoYInflationIndex.fixing c8Yi c8Ts 1000 400 = .ok (1/10) ∧
    ((1 : ℚ)/10) ≠ 110 := by
  refine ⟨rfl, rfl, by decide, ?_, by norm_num⟩
  rw [YoYInflationIndex.fixing_historical c8Yi c8Ts 1000 400
    (fun h => by exact absurd h (by decide)) (fun _ => by decide)]
  unfold YoYInflationIndex.historicalFixing
  norm_num [c8Yi, wYoY, c8Ts, blockOps30]

def c8nrYi : YoYIndex := { wYoY with interpolated := false, ratio := false }

theorem flat_fixing_non_interpolated_witness :
    w5Zi.interpolated = false ∧
    blockOps30.pstart 15 = blockOps30.pstart 0 ∧
    ZeroInflationIndex.fixing w5Zi wTs 1000 15 = .ok 100 ∧
    c8nrYi.interpolated = false ∧ c8nrYi.ratio = false ∧
    YoYInflationIndex.fixing c8nrYi wTs10a 1000 395 = .ok 110 :=
  ⟨rfl, by decide, (flat_fixing_non_interpolated 100).1 w5Zi wTs 1000 0 15 rfl rfl
      (by decide) (by decide),
    rfl, rfl, (flat_fixing_non_interpolated 110).2 c8nrYi wTs10a 1000 390 395 rfl rfl
      rfl (by decide) (by decide)⟩

/-- Every error produced by the historical four-way branch of
`YoYInflationIndex::fixing` is a MissingFixing naming the index. -/
theorem YoYInflationIndex.yoy_historicalFixing_error (yi : YoYIndex) (ts : Series)
    (d : Int) (e : Err)
    (h : YoYInflationIndex.historicalFixing yi ts d = .error e) :
    ∃ k, e = .MissingFixing yi.name k := by
  unfold YoYInflationIndex.historicalFixing at h
  dsimp only at h
  repeat' split at h
  all_goals first
    | exact Except.noConfusion h
    | (injection h with h2; exact ⟨_, h2.symm⟩)

/-- Every error produced by `YoYInflationIndex::fixing` is a
MissingFixing naming the index (forecast branches cannot fail). -/
theorem YoYInflationIndex.fixing_error (yi : YoYIndex) (ts : Series)
    (today d : Int) (e : Err)
    (h : YoYInflationIndex.fixing yi ts today d = .error e) :
    ∃ k, e = .MissingFixing yi.name k := by
  unfold YoYInflationIndex.fixing at h
  dsimp only at h
  split at h
  · exact Except.noConfusion h
  · split at h
    · exact Except.noConfusion h
    · exact YoYInflationIndex.yoy_historicalFixing_error yi ts d e h

/-- C4 (amended): every missing-entry failure of the historical fixing
branches is a MissingFixing naming the index; the reported date is the
exact series key looked up in every branch and at every lookup — the
zero engine's `p.first` and `p.second + 1`, all four lookups of the
YoY ratio/interpolated branch, both lookups of the non-ratio
interpolated branch, the flat branch's period start, and the year-ago
lookup of the ratio/non-interpolated branch — except that branch's
first lookup, which reports the queried fixingDate rather than the
period-start key it actually read. -/
theorem missing_fixing_reporting :
    (∀ (zi : ZeroIndex) (ts : Series) (today d : Int),
      ZeroInflationIndex.needsForecast zi ts today d = false →
      ts (zi.ops.pstart d) = none →
      ZeroInflationIndex.fixing zi ts today d =
        .error (.MissingFixing zi.name (zi.ops.pstart d))) ∧
    (∀ (zi : ZeroIndex) (ts : Series) (today d : Int) (I1 : ℚ),
      ZeroInflationIndex.needsForecast zi ts today d = false →
      zi.interpolated = true → zi.ops.pstart d < d →
      ts (zi.ops.pstart d) = some I1 →
      ts (zi.ops.pend d + 1) = none →
      ZeroInflationIndex.fixing zi ts today d =
        .error (.MissingFixing zi.name (zi.ops.pend d + 1))) ∧
    (∀ (yi : YoYIndex) (ts : Series) (today d : Int) (e : Err),
      YoYInflationIndex.fixing yi ts today d = .error e →
      ∃ k, e = .MissingFixing yi.name k) ∧
    (∀ (yi : YoYIndex) (ts : Series) (today d : Int),
      yi.ratio = true → yi.interpolated = false →
      ¬(yi.ops.pstart (yi.subAvailLag today) ≤ d) →
      ts (yi.ops.pstart d) = none →
      YoYInflationIndex.fixing yi ts today d =
        .error (.MissingFixing yi.name d)) ∧
    (∀ (yi : YoYIndex) (ts : Series) (today d : Int) (a : ℚ),
      yi.ratio = true → yi.interpolated = false →
      ¬(yi.ops.pstart (yi.subAvailLag today) ≤ d) →
      ts (yi.ops.pstart d) = some a →
      ts (yi.ops.pstart (yi.ops.sub1Y d)) = none →
      YoYInflationIndex.fixing yi ts today d =
        .error (.MissingFixing yi.name (yi.ops.pstart (yi.ops.sub1Y d)))) ∧
    (∀ (yi : YoYIndex) (ts : Series) (today d : Int),
      yi.ratio = true → yi.interpolated = true →
      ¬(yi.ops.subPeriod (yi.ops.pstart (yi.subAvailLag today)) ≤ d) →
      ts (yi.ops.pstart d) = none →
      YoYInflationIndex.fixing yi ts today d =
        .error (.MissingFixing yi.name (yi.ops.pstart d))) ∧
    (∀ (yi : YoYIndex) (ts : Series) (today d : Int) (a : ℚ),
      yi.ratio = true → yi.interpolated = true →
      ¬(yi.ops.subPeriod (yi.ops.pstart (yi.subAvailLag today)) ≤ d) →
      ts (yi.ops.pstart d) = some a →
      ts (yi.ops.pend d + 1) = none →
      YoYInflationIndex.fixing yi ts today d =
        .error (.MissingFixing yi.name (yi.ops.pend d + 1))) ∧
    (∀ (yi : YoYIndex) (ts : Series) (today d : Int) (a b : ℚ),
      yi.ratio = true → yi.interpolated = true →
      ¬(yi.ops.subPeriod (yi.ops.pstart (yi.subAvailLag today)) ≤ d) →
      ts (yi.ops.pstart d) = some a →
      ts (yi.ops.pend d + 1) = some b →
      ts (yi.ops.pstart (yi.ops.sub1YMF d)) = none →
      YoYInflationIndex.fixing yi ts today d =
        .error (.MissingFixing yi.name (yi.ops.pstart (yi.ops.sub1YMF d)))) ∧
    (∀ (yi : YoYIndex) (ts : Series) (today d : Int) (a b c : ℚ),
      yi.ratio = true → yi.interpolated = true →
      ¬(yi.ops.subPeriod (yi.ops.pstart (yi.subAvailLag today)) ≤ d) →
      ts (yi.ops.pstart d) = some a →
      ts (yi.ops.pend d + 1) = some b →
      ts (yi.ops.pstart (yi.ops.sub1YMF d)) = some c →
      ts (yi.ops.pend (yi.ops.sub1YMF d) + 1) = none →
      YoYInflationIndex.fixing yi ts today d =
        .error (.MissingFixing yi.name (yi.ops.pend (yi.ops.sub1YMF d) + 1))) ∧
    (∀ (yi : YoYIndex) (ts : Series) (today d : Int),
      yi.ratio = false → yi.interpolated = true →
      ¬(yi.ops.subPeriod (yi.ops.pstart (yi.subAvailLag today)) ≤ d) →
      ts (yi.ops.pstart d) = none →
      YoYInflationIndex.fixing yi ts today d =
        .error (.MissingFixing yi.name (yi.ops.pstart d))) ∧
    (∀ (yi : YoYIndex) (ts : Series) (today d : Int) (a : ℚ),
      yi.ratio = false → yi.interpolated = true →
      ¬(yi.ops.subPeriod (yi.ops.pstart (yi.subAvailLag today)) ≤ d) →
      ts (yi.ops.pstart d) = some a →
      ts (yi.ops.pend d + 1) = none →
      YoYInflationIndex.fixing yi ts today d =
        .error (.MissingFixing yi.name (yi.ops.pend d + 1))) ∧
    (∀ (yi : YoYIndex) (ts : Series) (today d : Int),
      yi.ratio = false → yi.interpolated = false →
      ¬(yi.ops.pstart (yi.subAvailLag today) ≤ d) →
      ts (yi.ops.pstart d) = none →
      YoYInflationIndex.fixing yi ts today d =
        .error (.MissingFixing yi.name (yi.ops.pstart d))) := by
  refine ⟨?_, ?_, ?_, ?_, ?_, ?_, ?_, ?_, ?_, ?_, ?_, ?_⟩
  · intro zi ts today d hnf hnone
    rw [ZeroInflationIndex.fixing_of_not_needsForecast zi ts today d hnf]
    unfold ZeroInflationIndex.historicalFixing
    rw [hnone]
  · intro zi ts today d I1 hnf hint hlt h1 h2
    rw [ZeroInflationIndex.fixing_of_not_needsForecast zi ts today d hnf]
    unfold ZeroInflationIndex.historicalFixing
    rw [h1]
    simp [hint, hlt, h2]
  · intro yi ts today d e h
    exact YoYInflationIndex.fixing_error yi ts today d e h
  · intro yi ts today d hratio hint hgate hnone
    rw [YoYInflationIndex.fixing_historical yi ts today d
      (fun h => by rw [h] at hint; exact absurd hint (by decide))
      (fun _ => hgate)]
    unfold YoYInflationIndex.historicalFixing
    simp only [hratio, hint, if_true, Bool.false_eq_true, if_false]
    rw [hnone]
  · intro yi ts today d a hratio hint hgate hsome hnone
    rw [YoYInflationIndex.fixing_historical yi ts today d
      (fun h => by rw [h] at hint; exact absurd hint (by decide))
      (fun _ => hgate)]
    unfold YoYInflationIndex.historicalFixing
    simp only [hratio, hint, if_true, Bool.false_eq_true, if_false]
    rw [hsome]
    dsimp only
    rw [hnone]
  · intro yi ts today d hratio hint hgate h1
    rw [YoYInflationIndex.fixing_historical yi ts today d (fun _ => hgate)
      (fun h => by rw [h] at hint; exact absurd hint (by decide))]
    simp only [YoYInflationIndex.historicalFixing, hratio, hint, if_true, h1]
  · intro yi ts today d a hratio hint hgate h1 h2
    rw [YoYInflationIndex.fixing_historical yi ts today d (fun _ => hgate)
      (fun h => by rw [h] at hint; exact absurd hint (by decide))]
    simp only [YoYInflationIndex.historicalFixing, hratio, hint, if_true, h1, h2]
  · intro yi ts today d a b hratio hint hgate h1 h2 h3
    rw [YoYInflationIndex.fixing_historical yi ts today d (fun _ => hgate)
      (fun h => by rw [h] at hint; exact absurd hint (by decide))]
    simp only [YoYInflationIndex.historicalFixing, hratio, hint, if_true, h1, h2, h3]
  · intro yi ts today d a b c hratio hint hgate h1 h2 h3 h4
    rw [YoYInflationIndex.fixing_historical yi ts today d (fun _ => hgate)
      (fun h => by rw [h] at hint; exact absurd hint (by decide))]
    simp only [YoYInflationIndex.historicalFixing, hratio, hint, if_true,
      h1, h2, h3, h4]
  · intro yi ts today d hratio hint hgate h1
    rw [YoYInflationIndex.fixing_historical yi ts today d (fun _ => hgate)
      (fun h => by rw [h] at hint; exact absurd hint (by decide))]
    simp only [YoYInflationIndex.historicalFixing, hratio, hint,
      Bool.false_eq_true, if_false, if_true, h1]
  · intro yi ts today d a hratio hint hgate h1 h2
    rw [YoYInflationIndex.fixing_historical yi ts today d (fun _ => hgate)
      (fun h => by rw [h] at hint; exact absurd hint (by decide))]
    simp only [YoYInflationIndex.historicalFixing, hratio, hint,
      Bool.false_eq_true, if_false, if_true, h1, h2]
  · intro yi ts today d hratio hint hgate h1
    rw [YoYInflationIndex.fixing_historical yi ts today d
      (fun h => by rw [h] at hint; exact absurd hint (by decide))
      (fun _ => hgate)]
    simp only [YoYInflationIndex.historicalFixing, hratio, hint,
      Bool.false_eq_true, if_false, h1]

/-- C4 counterexample: for the ratio, non-interpolated YoYInflationIndex
with an empty series, the historical fixing at date 400 (whose period
starts at 390) fails with a MissingFixing naming date 400 — the queried
date — and not the period-start key 390 that was actually looked up,
contradicting the claim as stated. -/
theorem missing_fixing_reporting_counterexample :
    YoYInflationIndex.fixing c8Yi emptyTs 1000 400 =
      .error (.MissingFixing c8Yi.name 400) ∧
    c8Yi.ops.pstart 400 = 390 ∧ (400 : Int) ≠ 390 ∧
    YoYInflationIndex.fixing c8Yi emptyTs 1000 400 ≠
      .error (.MissingFixing c8Yi.name (c8Yi.ops.pstart 400)) := by
  have hfix := YoYInflationIndex.fixing_historical c8Yi emptyTs 1000 400
    (fun h => absurd h (by decide)) (fun _ => by decide)
  have hmain : YoYInflationIndex.fixing c8Yi emptyTs 1000 400 =
      .error (.MissingFixing c8Yi.name 400) := by
    rw [hfix]
    unfold YoYInflationIndex.historicalFixing
    simp [c8Yi, wYoY, emptyTs]
  refine ⟨hmain, by decide, by decide, ?_⟩
  rw [hmain, show c8Yi.ops.pstart 400 = 390 from by decide]
  simp

def c4bTs : Series := fun k => if k = 0 then some 100 else none

def c4Ts8 : Series := fun k =>
  if k = 390 then some 110 else if k = 420 then some 112 else none

def c4Ts9 : Series := fun k =>
  if k = 390 then some 110 else if k = 420 then some 112
  else if k = 30 then some 100 else none

def c4nriYi : YoYIndex := { wYoY with ratio := false }

theorem missing_fixing_reporting_witness :
    ZeroInflationIndex.fixing w5Zi emptyTs 1000 15 =
      .error (.MissingFixing w5Zi.name (w5Zi.ops.pstart 15)) ∧
    ZeroInflationIndex.fixing wZi c4bTs 1000 15 =
      .error (.MissingFixing wZi.name (wZi.ops.pend 15 + 1)) ∧
    (∃ k, (Err.MissingFixing c8Yi.name 400) = .MissingFixing c8Yi.name k) ∧
    YoYInflationIndex.fixing c8Yi emptyTs 1000 400 =
      .error (.MissingFixing c8Yi.name 400) ∧
    YoYInflationIndex.fixing c8Yi wTs10a 1000 400 =
      .error (.MissingFixing c8Yi.name (c8Yi.ops.pstart (c8Yi.ops.sub1Y 400))) ∧
    YoYInflationIndex.fixing wYoY emptyTs 1000 390 =
      .error (.MissingFixing wYoY.name (wYoY.ops.pstart 390)) ∧
    YoYInflationIndex.fixing wYoY wTs10a 1000 390 =
      .error (.MissingFixing wYoY.name (wYoY.ops.pend 390 + 1)) ∧
    YoYInflationIndex.fixing wYoY c4Ts8 1000 390 =
      .error (.MissingFixing wYoY.name (wYoY.ops.pstart (wYoY.ops.sub1YMF 390))) ∧
    YoYInflationIndex.fixing wYoY c4Ts9 1000 390 =
      .error (.MissingFixing wYoY.name (wYoY.ops.pend (wYoY.ops.sub1YMF 390) + 1)) ∧
    YoYInflationIndex.fixing c4nriYi emptyTs 1000 390 =
      .error (.MissingFixing c4nriYi.name (c4nriYi.ops.pstart 390)) ∧
    YoYInflationIndex.fixing c4nriYi wTs10a 1000 390 =
      .error (.MissingFixing c4nriYi.name (c4nriYi.ops.pend 390 + 1)) ∧
    YoYInflationIndex.fixing c8nrYi emptyTs 1000 400 =
      .error (.MissingFixing c8nrYi.name (c8nrYi.ops.pstart 400)) := by
  obtain ⟨tA, tB, tC, tD, tE, tF, tG, tH, tI, tJ, tK, tL⟩ :=
    missing_fixing_reporting
  have h1 := tA w5Zi emptyTs 1000 15 (by decide) rfl
  have h2 := tB wZi c4bTs 1000 15 100 (by decide) rfl (by decide) rfl rfl
  have h4 := tD c8Yi emptyTs 1000 400 rfl rfl (by decide) rfl
  have h3 := tC c8Yi emptyTs 1000 400 _ h4
  have h5 := tE c8Yi wTs10a 1000 400 110 rfl rfl (by decide) rfl rfl
  have h6 := tF wYoY emptyTs 1000 390 rfl rfl (by decide) rfl
  have h7 := tG wYoY wTs10a 1000 390 110 rfl rfl (by decide) rfl rfl
  have h8 := tH wYoY c4Ts8 1000 390 110 112 rfl rfl (by decide) rfl rfl rfl
  have h9 := tI wYoY c4Ts9 1000 390 110 112 100 rfl rfl (by decide) rfl rfl rfl rfl
  have h10 := tJ c4nriYi emptyTs 1000 390 rfl rfl (by decide) rfl
  have h11 := tK c4nriYi wTs10a 1000 390 110 rfl rfl (by decide) rfl rfl
  have h12 := tL c8nrYi emptyTs 1000 400 rfl rfl (by decide) rfl
  exact ⟨h1, h2, h3, h4, h5, h6, h7, h8, h9, h10, h11, h12⟩

/-- Two series agree on every period-start key. -/
def agreeOnPeriodStarts (ops : DateOps) (ts ts2 : Series) : Prop :=
  ∀ k, ops.pstart k = k → ts k = ts2 k

/-- When first-of-month coincides with period start, `needsForecast`
reads the series only at period-start keys. -/
theorem ZeroInflationIndex.needsForecast_congr (zi : ZeroIndex) (ts ts2 : Series)
    (today d : Int)
    (hfom : ∀ x, zi.ops.fom x = zi.ops.pstart x)
    (h : agreeOnPeriodStarts zi.ops ts ts2) :
    ZeroInflationIndex.needsForecast zi ts today d =
      ZeroInflationIndex.needsForecast zi ts2 today d := by
  unfold ZeroInflationIndex.needsForecast
  dsimp only
  rw [hfom, h _ (zi.ops.pstart_idem _)]

/-- The zero historical branch reads the series only at period-start
keys. -/
theorem ZeroInflationIndex.historicalFixing_congr (zi : ZeroIndex) (ts ts2 : Series)
    (d : Int) (h : agreeOnPeriodStarts zi.ops ts ts2) :
    ZeroInflationIndex.historicalFixing zi ts d =
      ZeroInflationIndex.historicalFixing zi ts2 d := by
  unfold ZeroInflationIndex.historicalFixing
  rw [h _ (zi.ops.pstart_idem d), h _ (zi.ops.pstart_pend_succ d)]

theorem ZeroInflationIndex.forecastFixing_congr (zi : ZeroIndex) (ts ts2 : Series)
    (today d : Int)
    (hfom : ∀ x, zi.ops.fom x = zi.ops.pstart x)
    (h : agreeOnPeriodStarts zi.ops ts ts2) :
    ZeroInflationIndex.forecastFixing zi ts today d =
      ZeroInflationIndex.forecastFixing zi ts2 today d := by
  unfold ZeroInflationIndex.forecastFixing
  rw [ZeroInflationIndex.needsForecast_congr zi ts ts2 today zi.curve.baseDate hfom h,
    ZeroInflationIndex.historicalFixing_congr zi ts ts2 zi.curve.baseDate h]

theorem ZeroInflationIndex.fixing_congr (zi : ZeroIndex) (ts ts2 : Series)
    (today d : Int)
    (hfom : ∀ x, zi.ops.fom x = zi.ops.pstart x)
    (h : agreeOnPeriodStarts zi.ops ts ts2) :
    ZeroInflationIndex.fixing zi ts today d =
      ZeroInflationIndex.fixing zi ts2 today d := by
  unfold ZeroInflationIndex.fixing
  rw [ZeroInflationIndex.needsForecast_congr zi ts ts2 today d hfom h,
    ZeroInflationIndex.forecastFixing_congr zi ts ts2 today d hfom h,
    ZeroInflationIndex.historicalFixing_congr zi ts ts2 d h]

/-- The YoY historical branch reads the series only at period-start
keys (the year-earlier keys are period starts too). -/
theorem YoYInflationIndex.yoy_historicalFixing_congr (yi : YoYIndex) (ts ts2 : Series)
    (d : Int) (h : agreeOnPeriodStarts yi.ops ts ts2) :
    YoYInflationIndex.historicalFixing yi ts d =
      YoYInflationIndex.historicalFixing yi ts2 d := by
  unfold YoYInflationIndex.historicalFixing
  dsimp only
  rw [h _ (yi.ops.pstart_idem d), h _ (yi.ops.pstart_pend_succ d),
    h _ (yi.ops.pstart_idem (yi.ops.sub1YMF d)),
    h _ (yi.ops.pstart_pend_succ (yi.ops.sub1YMF d)),
    h _ (yi.ops.pstart_idem (yi.ops.sub1Y d))]

theorem YoYInflationIndex.yoy_fixing_congr (yi : YoYIndex) (ts ts2 : Series)
    (today d : Int) (h : agreeOnPeriodStarts yi.ops ts ts2) :
    YoYInflationIndex.fixing yi ts today d =
      YoYInflationIndex.fixing yi ts2 today d := by
  unfold YoYInflationIndex.fixing
  dsimp only
  rw [YoYInflationIndex.yoy_historicalFixing_congr yi ts ts2 d h]

/-- C3 (amended): the YoY engine's series lookups are all period-start
(or next-period-start) keys, so its result never depends on entries at
interior dates; the zero engine has the same property provided the
first day of the month of `latestNeededDate` is a period start (as for
monthly frequency), because the ambiguous-window probe inside
`needsForecast` reads the first-of-month key, which for other
frequencies is interior to a period (see the counterexample). -/
theorem series_lookups_period_start_keys
    (zi : ZeroIndex) (ts ts2 : Series) (today d : Int)
    (hfom : ∀ x, zi.ops.fom x = zi.ops.pstart x)
    (h : agreeOnPeriodStarts zi.ops ts ts2) :
    ZeroInflationIndex.needsForecast zi ts today d =
      ZeroInflationIndex.needsForecast zi ts2 today d ∧
    ZeroInflationIndex.fixing zi ts today d =
      ZeroInflationIndex.fixing zi ts2 today d ∧
    (∀ (yi : YoYIndex) (ts3 ts4 : Series),
      agreeOnPeriodStarts yi.ops ts3 ts4 →
      YoYInflationIndex.fixing yi ts3 today d =
        YoYInflationIndex.fixing yi ts4 today d) :=
  ⟨ZeroInflationIndex.needsForecast_congr zi ts ts2 today d hfom h,
    ZeroInflationIndex.fixing_congr zi ts ts2 today d hfom h,
    fun yi ts3 ts4 h34 => YoYInflationIndex.yoy_fixing_congr yi ts3 ts4 today d h34⟩

/-- C3 counterexample: a quarterly-style index (90-day publication
periods over 30-day months).  With today = 130 and fixing date 125,
`needsForecast` probes the series at the first of the month of
`latestNeededDate`, key 120, which is interior to the period
`[90, 179]`.  Two series agreeing on every period-start key (one
empty, one with an entry at 120) give different `needsForecast` and
different `fixing` results, so the engines do not read only
period-start keys as claimed. -/
def c3Zi : ZeroIndex where
  name := "EU HICPQ"
  interpolated := false
  ops := quarterOps90
  subAvailLag t := t
  curve := wCurve

def c3Ts : Series := fun k => if k = 120 then some 7 else none

theorem series_lookups_period_start_keys_counterexample :
    (∀ k : Int, c3Zi.ops.pstart k = k → emptyTs k = c3Ts k) ∧
    c3Zi.ops.pstart (c3Zi.ops.fom 125) ≠ c3Zi.ops.fom 125 ∧
    ZeroInflationIndex.needsForecast c3Zi emptyTs 130 125 = true ∧
    ZeroInflationIndex.needsForecast c3Zi c3Ts 130 125 = false ∧
    ZeroInflationIndex.fixing c3Zi emptyTs 130 125 =
      .error (.MissingFixing c3Zi.name 0) ∧
    ZeroInflationIndex.fixing c3Zi c3Ts 130 125 =
      .error (.MissingFixing c3Zi.name 90) := by
  refine ⟨?_, by decide, by decide, by decide, ?_, ?_⟩
  · intro k hk
    by_cases hx : k = 120
    · subst hx; exact absurd hk (by decide)
    · simp [emptyTs, c3Ts, hx]
  · simp [ZeroInflationIndex.fixing, ZeroInflationIndex.needsForecast,
      ZeroInflationIndex.forecastFixing, ZeroInflationIndex.historicalFixing,
      c3Zi, c3Ts, emptyTs, quarterOps90, wCurve]
  · simp [ZeroInflationIndex.fixing, ZeroInflationIndex.needsForecast,
      ZeroInflationIndex.historicalFixing, c3Zi, c3Ts, emptyTs, quarterOps90]

def w3Ts : Series := fun k => if k = 7 then some 3 else wTs k

def w3bTs : Series := fun k => if k = 41 then some 3 else wTs10a k

theorem series_lookups_period_start_keys_witness :
    (∀ x : Int, wZi.ops.fom x = wZi.ops.pstart x) ∧
    ZeroInflationIndex.fixing wZi wTs 1000 15 =
      ZeroInflationIndex.fixing wZi w3Ts 1000 15 ∧
    YoYInflationIndex.fixing wYoY wTs10a 1000 390 =
      YoYInflationIndex.fixing wYoY w3bTs 1000 390 := by
  have hagree : agreeOnPeriodStarts wZi.ops wTs w3Ts := by
    intro k hk
    by_cases hx : k = 7
    · subst hx; exact absurd hk (by decide)
    · simp [w3Ts, hx]
  have hagree2 : agreeOnPeriodStarts wYoY.ops wTs10a w3bTs := by
    intro k hk
    by_cases hx : k = 41
    · subst hx; exact absurd hk (by decide)
    · simp [w3bTs, hx]
  exact ⟨fun _ => rfl,
    (series_lookups_period_start_keys wZi wTs w3Ts 1000 15 (fun _ => rfl) hagree).2.1,
    (series_lookups_period_start_keys wZi wTs w3Ts 1000 390 (fun _ => rfl) hagree).2.2
      wYoY wTs10a w3bTs hagree2⟩

theorem DateOps.pend_eq_of_pstart_eq (ops : DateOps) (d3 d : Int)
    (h : ops.pstart d3 = ops.pstart d) : ops.pend d3 = ops.pend d := by
  have h1 := ops.pend_pstart d3
  have h2 := ops.pend_pstart d
  rw [← h1, h, h2]

theorem mem_periodDays (ops : DateOps) (d k : Int) :
    k ∈ periodDays ops d ↔ ops.pstart d ≤ k ∧ k ≤ ops.pend d := by
  have hsle : ops.pstart d ≤ ops.pend d := (ops.pstart_le d).trans (ops.le_pend d)
  unfold periodDays
  constructor
  · intro hk
    obtain ⟨i, hi, hki⟩ := List.mem_map.1 hk
    rw [List.mem_range] at hi
    subst hki
    omega
  · intro hk
    refine List.mem_map.2 ⟨(k - ops.pstart d).toNat, ?_, ?_⟩
    · rw [List.mem_range]; omega
    · omega

theorem List.find?_exists_of_mem {l : List Int} {p : Int → Bool} {x : Int}
    (hx : x ∈ l) (hpx : p x = true) : ∃ k, l.find? p = some k := by
  cases hf : l.find? p with
  | some k => exact ⟨k, rfl⟩
  | none =>
    rw [List.find?_eq_none] at hf
    exact absurd hpx (by simpa using hf x hx)

/-- C7 (amended): starting from a series with no fixing in the period
containing `d`, `addFixing(d, v)` succeeds and writes `v` at every day
of the inclusive period, so that a subsequent historical `fixing(d2)`
at any day of the period returns `v` for a non-interpolated index (an
interpolated index additionally requires the next period's stored
fixing for days past the period start — see the counterexample); a
second `addFixing` on an overlapping date with a different value and
`forceOverwrite = false` fails with DuplicateFixing, while with
`forceOverwrite = true` it succeeds and updates all days of the
period. -/
theorem addFixing_roundtrip
    (ops : DateOps) (name : String) (ts : Series) (d : Int) (v : ℚ)
    (hempty : ∀ k, ops.pstart d ≤ k → k ≤ ops.pend d → ts k = none) :
    ∃ ts2, InflationIndex.addFixing ops name ts d v false = .ok ts2 ∧
      (∀ k, ops.pstart d ≤ k → k ≤ ops.pend d → ts2 k = some v) ∧
      (∀ (nm : String) (sub : Int → Int) (curve : ZeroCurve) (today d2 : Int),
        ops.pstart d2 = ops.pstart d →
        ZeroInflationIndex.needsForecast ⟨nm, false, ops, sub, curve⟩ ts2 today d2 =
          false →
        ZeroInflationIndex.fixing ⟨nm, false, ops, sub, curve⟩ ts2 today d2 =
          .ok v) ∧
      (∀ (d3 : Int) (w : ℚ), ops.pstart d3 = ops.pstart d → w ≠ v →
        (∃ k, InflationIndex.addFixing ops name ts2 d3 w false =
          .error (.DuplicateFixing name k)) ∧
        (∃ ts3, InflationIndex.addFixing ops name ts2 d3 w true = .ok ts3 ∧
          ∀ k, ops.pstart d ≤ k → k ≤ ops.pend d → ts3 k = some w)) := by
  have hmem_start : ops.pstart d ∈ periodDays ops d :=
    (mem_periodDays ops d _).2 ⟨le_rfl, (ops.pstart_le d).trans (ops.le_pend d)⟩
  refine ⟨fun k => if k ∈ periodDays ops d then some v else ts k, ?_, ?_, ?_, ?_⟩
  · unfold InflationIndex.addFixing Index.addFixings
    have hnone : (periodDays ops d).find? (conflictsWith ts v) = none := by
      rw [List.find?_eq_none]
      intro x hx
      have hx2 := (mem_periodDays ops d x).1 hx
      simp [conflictsWith, hempty x hx2.1 hx2.2]
    dsimp only
    rw [hnone]
    simp
  · intro k h1 h2
    dsimp only
    rw [if_pos ((mem_periodDays ops d k).2 ⟨h1, h2⟩)]
  · intro nm sub curve today d2 hps hnf
    rw [ZeroInflationIndex.fixing_of_not_needsForecast _ _ today d2 hnf]
    unfold ZeroInflationIndex.historicalFixing
    dsimp only
    rw [hps, if_pos hmem_start]
    simp
  · intro d3 w hps3 hw
    have he3 : ops.pend d3 = ops.pend d := ops.pend_eq_of_pstart_eq d3 d hps3
    have hdays : periodDays ops d3 = periodDays ops d := by
      unfold periodDays
      rw [hps3, he3]
    constructor
    · have hpred : conflictsWith
          (fun k => if k ∈ periodDays ops d then some v else ts k) w
          (ops.pstart d) = true := by
        simp only [conflictsWith, if_pos hmem_start]
        exact decide_eq_true (Ne.symm hw)
      obtain ⟨k, hk⟩ := List.find?_exists_of_mem hmem_start hpred
      refine ⟨k, ?_⟩
      unfold InflationIndex.addFixing Index.addFixings
      dsimp only
      rw [hdays, hk]
      simp
    · refine ⟨fun k => if k ∈ periodDays ops d3 then some w
        else if k ∈ periodDays ops d then some v else ts k, ?_, ?_⟩
      · unfold InflationIndex.addFixing Index.addFixings
        dsimp only
        simp
      · intro k h1 h2
        dsimp only
        rw [if_pos ((mem_periodDays ops d3 k).2
          ⟨by rw [hps3]; exact h1, by rw [he3]; exact h2⟩)]

/-- C7 counterexample: for an interpolated index, `addFixing` followed
by `fixing` at an interior day of the same period does not return the
submitted value: with only the period `[0, 29]` populated, the
historical interpolated fixing at day 1 needs the next period's stored
fixing at 30 and fails with MissingFixing instead. -/
theorem addFixing_roundtrip_counterexample :
    ∃ ts2, InflationIndex.addFixing blockOps30 wZi.name emptyTs 0 100 false =
        .ok ts2 ∧
      ZeroInflationIndex.needsForecast wZi ts2 1000 1 = false ∧
      ts2 1 = some 100 ∧
      ZeroInflationIndex.fixing wZi ts2 1000 1 =
        .error (.MissingFixing wZi.name 30) :=
  ⟨fun k => if k ∈ periodDays blockOps30 0 then some 100 else emptyTs k,
    rfl, by decide, rfl, rfl⟩

theorem addFixing_roundtrip_witness :
    (∀ k : Int, blockOps30.pstart 5 ≤ k → k ≤ blockOps30.pend 5 →
      emptyTs k = none) ∧
    (∃ ts2, InflationIndex.addFixing blockOps30 "EU HICP" emptyTs 5 100 false =
        .ok ts2 ∧
      (∀ k, blockOps30.pstart 5 ≤ k → k ≤ blockOps30.pend 5 →
        ts2 k = some 100) ∧
      (∀ (nm : String) (sub : Int → Int) (curve : ZeroCurve) (today d2 : Int),
        blockOps30.pstart d2 = blockOps30.pstart 5 →
        ZeroInflationIndex.needsForecast ⟨nm, false, blockOps30, sub, curve⟩
          ts2 today d2 = false →
        ZeroInflationIndex.fixing ⟨nm, false, blockOps30, sub, curve⟩
          ts2 today d2 = .ok 100) ∧
      (∀ (d3 : Int) (w : ℚ), blockOps30.pstart d3 = blockOps30.pstart 5 →
        w ≠ 100 →
        (∃ k, InflationIndex.addFixing blockOps30 "EU HICP" ts2 d3 w false =
          .error (.DuplicateFixing "EU HICP" k)) ∧
        (∃ ts3, InflationIndex.addFixing blockOps30 "EU HICP" ts2 d3 w true =
            .ok ts3 ∧
          ∀ k, blockOps30.pstart 5 ≤ k → k ≤ blockOps30.pend 5 →
            ts3 k = some w))) :=
  ⟨fun _ _ _ => rfl,
    addFixing_roundtrip blockOps30 "EU HICP" emptyTs 5 100 (fun _ _ _ => rfl)⟩
